import Mathlib

/-!
Verification development for the url_opener_v2 navigation/auth-interception
core: the redirect classifier, the navigation-interception policy of the
main process (electron.js) and of the embedded-browser renderer component
(src/components/EmbeddedBrowser.js), the URL-history accumulation, and the
external-browser blocking.  JavaScript string/URL primitives used by the
source (String.prototype.includes, the legacy Node url.parse query
extraction, querystring parsing, the WHATWG URL constructor as used for
query/fragment parameter extraction) are modelled explicitly below.
-/

/-- Model of JavaScript `String.prototype.isPrefix`-style check on char
lists: `isPrefixChars pat l` is true when `pat` is an initial segment of
`l`. -/
def isPrefixChars : List Char → List Char → Bool
  | [], _ => true
  | _ :: _, [] => false
  | p :: ps, c :: cs => p == c && isPrefixChars ps cs

/-- `containsChars pat l` is true when `pat` occurs as a contiguous
substring of `l`. -/
def containsChars (pat : List Char) : List Char → Bool
  | [] => pat.isEmpty
  | c :: rest => isPrefixChars pat (c :: rest) || containsChars pat rest

/-- Model of JavaScript `s.includes(pat)`: substring containment. -/
def jsIncludes (s pat : String) : Bool :=
  containsChars pat.data s.data

/-- Split a char list at the first occurrence of `sep`; `none` when `sep`
does not occur, otherwise the parts before and after it. -/
def breakAtFirst (sep : Char) : List Char → Option (List Char × List Char)
  | [] => none
  | c :: rest =>
    if c == sep then some ([], rest)
    else (breakAtFirst sep rest).map (fun p => (c :: p.1, p.2))

/-- Split a char list on every occurrence of `sep` (segments may be
empty). -/
def splitChars (sep : Char) : List Char → List (List Char)
  | [] => [[]]
  | c :: rest =>
    let r := splitChars sep rest
    if c == sep then [] :: r
    else
      match r with
      | [] => [[c]]
      | h :: t => (c :: h) :: t

/-- Numeric value of a hexadecimal digit, `none` for non-hex characters. -/
def hexDigitVal (c : Char) : Option Nat :=
  if '0' ≤ c ∧ c ≤ '9' then some (c.toNat - '0'.toNat)
  else if 'a' ≤ c ∧ c ≤ 'f' then some (c.toNat - 'a'.toNat + 10)
  else if 'A' ≤ c ∧ c ≤ 'F' then some (c.toNat - 'A'.toNat + 10)
  else none

/-- Query-string component decoding as done by both `querystring.parse`
and `URLSearchParams`: `+` becomes a space and `%XX` hex escapes are
decoded byte-wise; malformed escapes are left literal (the source's
parsers never throw here).  Multi-byte UTF-8 sequences are decoded
byte-by-byte, which agrees with the real decoders on every ASCII key the
source ever compares against. -/
def pctDecodePlusAux : Nat → List Char → List Char
  | 0, _ => []
  | _, [] => []
  | Nat.succ fuel, '%' :: a :: b :: rest =>
    match hexDigitVal a, hexDigitVal b with
    | some ha, some hb => Char.ofNat (16 * ha + hb) :: pctDecodePlusAux fuel rest
    | _, _ => '%' :: pctDecodePlusAux fuel (a :: b :: rest)
  | Nat.succ fuel, c :: rest =>
    (if c == '+' then ' ' else c) :: pctDecodePlusAux fuel rest

/-- Decode a query-string component; every step consumes at least one
character, so the input length is enough fuel. -/
def pctDecodePlus (l : List Char) : List Char :=
  pctDecodePlusAux l.length l

/-- One `key=value` segment of a query string: split at the first `=`
(no `=` means an empty value), decoding key and value. -/
def parseQSPair (seg : List Char) : String × String :=
  match breakAtFirst '=' seg with
  | some (k, v) => (String.mk (pctDecodePlus k), String.mk (pctDecodePlus v))
  | none => (String.mk (pctDecodePlus seg), "")

/-- Parse a raw query string (without the leading `?`) into an ordered
list of key/value pairs, as `querystring.parse` and `URLSearchParams`
both do: split on `&`, skip empty segments, split each segment at its
first `=`. -/
def parseQS (q : List Char) : List (String × String) :=
  ((splitChars '&' q).filter (fun seg => !seg.isEmpty)).map parseQSPair

/-- The raw query part of a URL string: everything after the first `?`
that precedes the first `#`, exactly how the legacy Node `url.parse`
(and, for well-formed URLs, the WHATWG parser) carves out the search
component. -/
def queryChars (u : String) : List Char :=
  let beforeHash :=
    match breakAtFirst '#' u.data with
    | some (b, _) => b
    | none => u.data
  match breakAtFirst '?' beforeHash with
  | some (_, q) => q
  | none => []

/-- The raw fragment part of a URL string: everything after the first
`#` (the source reads `urlObj.hash.substring(1)`). -/
def fragmentChars (u : String) : List Char :=
  match breakAtFirst '#' u.data with
  | some (_, f) => f
  | none => []

/-- Query pairs of a URL as seen through the legacy Node
`url.parse(u, true).query`.  The legacy parser accepts arbitrary strings
(it never throws on a malformed URL string), so this is total. -/
def nodeQueryOf (u : String) : List (String × String) :=
  parseQS (queryChars u)

/-- JavaScript truthiness of `query.k` on a legacy-parsed query object:
absent keys are `undefined` (falsy), a single occurrence is a string
(truthy iff non-empty), and repeated occurrences collapse to an array
(always truthy). -/
def qsTruthy (pairs : List (String × String)) (k : String) : Bool :=
  match pairs.filter (fun p => p.1 == k) with
  | [] => false
  | [p] => p.2 != ""
  | _ => true

/-- `URLSearchParams.get`: the first value stored under `k`, if any. -/
def uspGet (pairs : List (String × String)) (k : String) : Option String :=
  match pairs.filter (fun p => p.1 == k) with
  | [] => none
  | p :: _ => some p.2

/-- JavaScript truthiness of `params.get(k)`: `null` (absent) is falsy,
a present value is truthy iff it is a non-empty string. -/
def uspTruthy (pairs : List (String × String)) (k : String) : Bool :=
  match uspGet pairs k with
  | some v => v != ""
  | none => false

/-- Scheme-body characters per the WHATWG URL grammar. -/
def isSchemeChar (c : Char) : Bool :=
  c.isAlpha || c.isDigit || c == '+' || c == '-' || c == '.'

/-- After the leading alpha, a scheme continues with scheme characters
and must reach a `:`. -/
def schemeRest : List Char → Bool
  | [] => false
  | c :: rest => if c == ':' then true else isSchemeChar c && schemeRest rest

/-- A string starts with a valid URL scheme (`alpha (alphanum|+|-|.)* :`). -/
def hasValidScheme : List Char → Bool
  | [] => false
  | c :: rest => c.isAlpha && schemeRest rest

/-- Model of the WHATWG `new URL(u)` constructor as the source consumes
it: on success it yields the parsed search parameters and the parsed
fragment parameters (`new URLSearchParams(urlObj.search)` and
`new URLSearchParams(urlObj.hash.substring(1))`); a string without a
valid scheme makes the constructor throw, modelled as `none`.  Host
validation and component normalisation beyond this are not modelled;
every concrete string used in the theorems below is decided identically
by the real parser. -/
def whatwgParse (u : String) :
    Option (List (String × String) × List (String × String)) :=
  if hasValidScheme u.data then
    some (parseQS (queryChars u), parseQS (fragmentChars u))
  else none

/-! ## Main process (electron.js) -/

/-- The condition of `mainSession.webRequest.onBeforeRedirect`
(electron.js lines 139-147): the redirect URL must contain one of the
six keywords AND one of `query.token`, `query.code`,
`query.access_token` must be truthy.  When it holds, the main process
sends `handle-auth-redirect` with the redirect URL to the renderer. -/
def onBeforeRedirectForwards (redirectUrl : String) : Bool :=
  (jsIncludes redirectUrl "auth" ||
   jsIncludes redirectUrl "oauth" ||
   jsIncludes redirectUrl "signin" ||
   jsIncludes redirectUrl "login" ||
   jsIncludes redirectUrl "sso" ||
   jsIncludes redirectUrl "callback") &&
  (qsTruthy (nodeQueryOf redirectUrl) "token" ||
   qsTruthy (nodeQueryOf redirectUrl) "code" ||
   qsTruthy (nodeQueryOf redirectUrl) "access_token")

/-- The condition of the main-process `will-navigate` listener
(electron.js lines 280-288), which only logs an OAuth detection: same
keyword-AND-parameter test as the redirect site. -/
def willNavigateMainDetectsOAuth (navigateUrl : String) : Bool :=
  (jsIncludes navigateUrl "auth" ||
   jsIncludes navigateUrl "oauth" ||
   jsIncludes navigateUrl "signin" ||
   jsIncludes navigateUrl "login" ||
   jsIncludes navigateUrl "sso" ||
   jsIncludes navigateUrl "callback") &&
  (qsTruthy (nodeQueryOf navigateUrl) "token" ||
   qsTruthy (nodeQueryOf navigateUrl) "code" ||
   qsTruthy (nodeQueryOf navigateUrl) "access_token")

/-- The branch condition of `contents.setWindowOpenHandler`
(electron.js lines 299-307): keyword containment OR a truthy
token/code/access_token query parameter. -/
def windowOpenAuthCond (openUrl : String) : Bool :=
  (jsIncludes openUrl "auth" ||
   jsIncludes openUrl "login" ||
   jsIncludes openUrl "sso" ||
   jsIncludes openUrl "oauth" ||
   jsIncludes openUrl "signin" ||
   jsIncludes openUrl "callback") ||
  (qsTruthy (nodeQueryOf openUrl) "token" ||
   qsTruthy (nodeQueryOf openUrl) "code" ||
   qsTruthy (nodeQueryOf openUrl) "access_token")

/-- Observable outcome of one `setWindowOpenHandler` invocation:
whether `handle-auth-redirect` is sent to the renderer (with which URL),
whether the "External Browser Disabled" dialog is shown, and whether the
new window is denied. -/
structure WindowOpenOutcome where
  forwardToView : Option String
  showNotice : Bool
  denied : Bool
deriving DecidableEq, Repr

/-- `contents.setWindowOpenHandler` (electron.js lines 294-324): on the
auth branch, send `handle-auth-redirect` to the renderer and show no
dialog; otherwise show the "External Browser Disabled" dialog; in both
cases return `{ action: 'deny' }`. -/
def setWindowOpenHandlerOutcome (openUrl : String) : WindowOpenOutcome :=
  if windowOpenAuthCond openUrl then
    { forwardToView := some openUrl, showNotice := false, denied := true }
  else
    { forwardToView := none, showNotice := true, denied := true }

/-- One record of the main-process URL history list. -/
structure HistoryEntry where
  url : String
  timestamp : String
  batchId : Option Nat
deriving DecidableEq, Repr

/-- The `ipcMain.on('log-url-opened')` handler (electron.js lines
203-209): `urlHistory.push(data)`. -/
def logUrlOpened (urlHistory : List HistoryEntry) (data : HistoryEntry) :
    List HistoryEntry :=
  urlHistory ++ [data]

/-- The IPC channels electron.js registers with `ipcMain.on`. -/
def ipcMainOnChannels : List String :=
  ["log-url-opened", "open-batch", "download-pdf", "open-external"]

/-- The IPC channels electron.js registers with `ipcMain.handle`
(request/response channels answering `ipcRenderer.invoke`): there are
none in the source. -/
def ipcMainHandleChannels : List String := []

/-- `ipcRenderer.invoke` against the main process: a registered handle
channel answers with the accumulated history, an unregistered one makes
the returned promise reject. -/
def invokeIpc (handleChannels : List String) (channel : String)
    (mainHistory : List HistoryEntry) : Except String (List HistoryEntry) :=
  if handleChannels.contains channel then Except.ok mainHistory
  else Except.error ("No handler registered for " ++ channel)

/-- `loadHistory` of UrlHistory.js (lines 41-76): it awaits
`ipcRenderer.invoke('get-opened-urls')`; on success the result becomes
the UI's history list, and a rejection is caught, leaving the UI list at
its initial `[]`. -/
def loadHistory (mainHistory : List HistoryEntry) : List HistoryEntry :=
  match invokeIpc ipcMainHandleChannels "get-opened-urls" mainHistory with
  | Except.ok h => h
  | Except.error _ => []

/-- How `shell.openExternal` is implemented at a given moment: the
Electron original (which launches the platform browser) or the blocking
stub installed by electron.js. -/
inductive OpenExternalImpl
  | original
  | blockedStub
deriving DecidableEq, Repr

/-- The main-process state the external-browser blocking concerns. -/
structure MainState where
  openExternal : OpenExternalImpl
deriving DecidableEq, Repr

/-- Before any app event fires, `shell.openExternal` is still Electron's
original implementation. -/
def initialMainState : MainState :=
  { openExternal := OpenExternalImpl.original }

/-- The app-level events electron.js registers listeners for. -/
inductive AppEvent
  | willFinishLaunching
  | ready
  | windowAllClosed
  | activate
  | login
  | webContentsCreated
  | renderProcessGone
deriving DecidableEq, Repr

/-- Effect of one app event on the main state: the
`will-finish-launching` handler (electron.js lines 13-19) and the
`ready` handler (lines 22-33) both overwrite `shell.openExternal` with
the logging stub; no other handler touches it. -/
def handleAppEvent (st : MainState) : AppEvent → MainState
  | AppEvent.willFinishLaunching => { openExternal := OpenExternalImpl.blockedStub }
  | AppEvent.ready => { openExternal := OpenExternalImpl.blockedStub }
  | _ => st

/-- Process a sequence of app events in order. -/
def runAppEvents (st : MainState) : List AppEvent → MainState
  | [] => st
  | e :: rest => runAppEvents (handleAppEvent st e) rest

/-- Observable result of one `shell.openExternal(url)` call. -/
structure OpenExternalResult where
  launchedExternal : Bool
  promiseResolved : Bool
  loggedBlocked : Bool
deriving DecidableEq, Repr

/-- Calling `shell.openExternal`: the stub installed by electron.js
(lines 15-18 and 24-27) only logs and returns `Promise.resolve()`;
the Electron original would launch the external browser (modelled from
Electron's documented behaviour, not part of this repository). -/
def callOpenExternal : OpenExternalImpl → String → OpenExternalResult
  | OpenExternalImpl.blockedStub, _ =>
    { launchedExternal := false, promiseResolved := true, loggedBlocked := true }
  | OpenExternalImpl.original, _ =>
    { launchedExternal := true, promiseResolved := true, loggedBlocked := false }

/-! ## Renderer (src/components/EmbeddedBrowser.js) -/

/-- `handleWillNavigate` (EmbeddedBrowser.js lines 278-290): set
`authInProgress` when the URL contains `oauth`, `auth`, `login` or
`sso`; otherwise the flag is left as it was.  The returned Bool is the
flag after the event. -/
def handleWillNavigate (authInProgress : Bool) (u : String) : Bool :=
  if jsIncludes u "oauth" ||
     jsIncludes u "auth" ||
     jsIncludes u "login" ||
     jsIncludes u "sso" then true
  else authInProgress

/-- Observable outcome of the renderer's `new-window` handler. -/
structure RendererNewWindowOutcome where
  authInProgress : Bool
  loadInView : Option String
  prevented : Bool
deriving DecidableEq, Repr

/-- `handleNewWindow` (EmbeddedBrowser.js lines 292-318): always
`e.preventDefault()`; when the URL contains `auth`, `login`, `sso`,
`oauth` or `callback`, set `authInProgress` and load the URL in the
current webview; otherwise do nothing further. -/
def handleNewWindow (authInProgress : Bool) (u : String) :
    RendererNewWindowOutcome :=
  if jsIncludes u "auth" ||
     jsIncludes u "login" ||
     jsIncludes u "sso" ||
     jsIncludes u "oauth" ||
     jsIncludes u "callback" then
    { authInProgress := true, loadInView := some u, prevented := true }
  else
    { authInProgress := authInProgress, loadInView := none, prevented := true }

/-- `handleAuthRedirect` (EmbeddedBrowser.js lines 58-71), the renderer
listener for the main process's `handle-auth-redirect` channel: set
`authInProgress` and load the forwarded URL in the current webview. -/
def handleAuthRedirect (redirectUrl : String) : Bool × Option String :=
  (true, some redirectUrl)

/-- The outer substring check of `handleDidStopLoading`
(EmbeddedBrowser.js lines 162-168). -/
def didStopOuterCheck (finalUrl : String) : Bool :=
  jsIncludes finalUrl "callback" ||
  jsIncludes finalUrl "token" ||
  jsIncludes finalUrl "auth" ||
  jsIncludes finalUrl "code" ||
  jsIncludes finalUrl "access_token"

/-- The auth-flag part of `handleDidStopLoading` (EmbeddedBrowser.js
lines 157-187): when `authInProgress` holds and the final URL passes the
substring check, parse it with `new URL`; if `params.get('code')`,
`params.get('token')`, `params.get('access_token')` or
`hashParams.get('access_token')` is truthy, clear `authInProgress`; a
parse failure is caught and changes nothing.  The returned Bool is the
flag after the event. -/
def handleDidStopLoading (authInProgress : Bool) (finalUrl : String) : Bool :=
  if authInProgress && didStopOuterCheck finalUrl then
    match whatwgParse finalUrl with
    | some (params, hashParams) =>
      if uspTruthy params "code" ||
         uspTruthy params "token" ||
         uspTruthy params "access_token" ||
         uspTruthy hashParams "access_token" then false
      else authInProgress
    | none => authInProgress
  else authInProgress

/-- The history side of `handleDidStopLoading` (EmbeddedBrowser.js lines
188-195): on every `did-stop-loading` the renderer sends exactly one
`log-url-opened` message carrying the webview's final URL, the timestamp
taken at the handler, and the batch id. -/
def didStopLogEntry (finalUrl timestamp : String) (batchId : Option Nat) :
    HistoryEntry :=
  { url := finalUrl, timestamp := timestamp, batchId := batchId }

/-- `handleLoadFailed` (EmbeddedBrowser.js lines 363-376): when
`authInProgress` holds, return without surfacing anything; otherwise
surface the error description unless the code is `-3` (ERR_ABORTED).
The first component is the auth flag after the event (the handler never
writes it), the second the surfaced error title, if any. -/
def handleLoadFailed (authInProgress : Bool) (errorCode : Int)
    (errorDescription : String) : Bool × Option String :=
  if authInProgress then (authInProgress, none)
  else if errorCode ≠ -3 then
    (authInProgress, some ("Error loading page: " ++ errorDescription))
  else (authInProgress, none)

/-! ## Spec-side definitions

These follow the specification's wording, to be compared with the
transcriptions above. -/

/-- The spec's fixed keyword set test: the URL contains at least one of
auth, oauth, signin, login, sso, callback. -/
def hasKeyword (u : String) : Bool :=
  jsIncludes u "auth" ||
  jsIncludes u "oauth" ||
  jsIncludes u "signin" ||
  jsIncludes u "login" ||
  jsIncludes u "sso" ||
  jsIncludes u "callback"

/-- At least one query parameter named token, code or access_token has a
truthy (non-empty, non-repeated-empty) value under the legacy query
parse. -/
def hasTruthyAuthParam (u : String) : Bool :=
  qsTruthy (nodeQueryOf u) "token" ||
  qsTruthy (nodeQueryOf u) "code" ||
  qsTruthy (nodeQueryOf u) "access_token"

/-- At least one query parameter is named token, code or access_token
(mere presence, the spec's wording). -/
def hasNamedAuthParam (u : String) : Bool :=
  (nodeQueryOf u).any (fun p => p.1 == "token") ||
  (nodeQueryOf u).any (fun p => p.1 == "code") ||
  (nodeQueryOf u).any (fun p => p.1 == "access_token")

/-- Modelled from the spec: the Redirect Classifier invariant, "a
NavigationEvent is classified as auth-related iff its URL contains at
least one of a fixed keyword set {auth, oauth, signin, login, sso,
callback} and at least one of its query parameters is named token, code,
or access_token". -/
def specClassify (u : String) : Bool :=
  hasKeyword u && hasNamedAuthParam u

/-- The renderer `will-navigate` keyword test, in spec vocabulary. -/
def willNavigateKeywordHit (u : String) : Bool :=
  jsIncludes u "oauth" ||
  jsIncludes u "auth" ||
  jsIncludes u "login" ||
  jsIncludes u "sso"

/-- The renderer `new-window` keyword test, in spec vocabulary. -/
def newWindowKeywordHit (u : String) : Bool :=
  jsIncludes u "auth" ||
  jsIncludes u "login" ||
  jsIncludes u "sso" ||
  jsIncludes u "oauth" ||
  jsIncludes u "callback"

/-- The condition under which a completed load actually clears the
pending-auth flag: the final URL passes the substring check, parses, and
carries a truthy code/token/access_token query parameter or a truthy
access_token fragment parameter. -/
def authResultDelivered (u : String) : Bool :=
  didStopOuterCheck u &&
  (match whatwgParse u with
   | some (params, hashParams) =>
     uspTruthy params "code" ||
     uspTruthy params "token" ||
     uspTruthy params "access_token" ||
     uspTruthy hashParams "access_token"
   | none => false)

/-! ## Helper lemmas -/

/-- The main-process new-window branch condition, regrouped into the
spec's vocabulary: keyword containment OR a truthy auth parameter. -/
lemma windowOpenAuthCond_eq (u : String) :
    windowOpenAuthCond u = (hasKeyword u || hasTruthyAuthParam u) := by
  unfold windowOpenAuthCond hasKeyword hasTruthyAuthParam
  generalize jsIncludes u "auth" = A
  generalize jsIncludes u "oauth" = O
  generalize jsIncludes u "signin" = G
  generalize jsIncludes u "login" = L
  generalize jsIncludes u "sso" = S
  generalize jsIncludes u "callback" = C
  generalize qsTruthy (nodeQueryOf u) "token" = T
  generalize qsTruthy (nodeQueryOf u) "code" = K
  generalize qsTruthy (nodeQueryOf u) "access_token" = X
  revert A O G L S C T K X
  decide

/-- Taking the original length back off an appended list returns the
original list. -/
lemma take_length_append {α : Type} (l₁ l₂ : List α) :
    (l₁ ++ l₂).take l₁.length = l₁ := by
  induction l₁ with
  | nil => rfl
  | cons a t ih => simp [List.take, ih]

/-- Once the blocking stub is installed, no later app event restores the
original `shell.openExternal`. -/
lemma runAppEvents_from_blocked (evs : List AppEvent) :
    runAppEvents { openExternal := OpenExternalImpl.blockedStub } evs
      = { openExternal := OpenExternalImpl.blockedStub } := by
  induction evs with
  | nil => rfl
  | cons e rest ih => cases e <;> simpa [runAppEvents, handleAppEvent] using ih

/-- From any starting state, an event sequence containing
`will-finish-launching` ends with the blocking stub installed. -/
lemma runAppEvents_mem_blocked (st : MainState) (evs : List AppEvent)
    (hmem : AppEvent.willFinishLaunching ∈ evs) :
    runAppEvents st evs = { openExternal := OpenExternalImpl.blockedStub } := by
  induction evs generalizing st with
  | nil => cases hmem
  | cons e rest ih =>
    by_cases hr : AppEvent.willFinishLaunching ∈ rest
    · exact ih _ hr
    · have he : e = AppEvent.willFinishLaunching := by
        rcases List.mem_cons.mp hmem with h | h
        · exact h.symm
        · exact absurd h hr
      subst he
      simpa [runAppEvents, handleAppEvent] using
        runAppEvents_from_blocked rest

/-! ## Claim theorems -/

/-- Claim C1 (corrected): classification is not the same at every
interception call site.  At the redirect site and the main-process
will-navigate logger it is keyword containment AND a truthy
token/code/access_token query parameter; at the main-process new-window
site it is keyword containment OR a truthy parameter; the renderer
will-navigate and new-window handlers test keywords only
({oauth, auth, login, sso} resp. {auth, login, sso, oauth, callback}),
consulting no parameters. -/
theorem c1_classification_per_site (u : String) :
    onBeforeRedirectForwards u = (hasKeyword u && hasTruthyAuthParam u) ∧
    willNavigateMainDetectsOAuth u = (hasKeyword u && hasTruthyAuthParam u) ∧
    windowOpenAuthCond u = (hasKeyword u || hasTruthyAuthParam u) ∧
    handleWillNavigate false u = willNavigateKeywordHit u ∧
    (handleNewWindow false u).authInProgress = newWindowKeywordHit u := by
  refine ⟨rfl, rfl, windowOpenAuthCond_eq u, ?_, ?_⟩
  · unfold handleWillNavigate willNavigateKeywordHit
    cases h : (jsIncludes u "oauth" || jsIncludes u "auth" ||
        jsIncludes u "login" || jsIncludes u "sso") <;> simp [h]
  · unfold handleNewWindow newWindowKeywordHit
    cases h : (jsIncludes u "auth" || jsIncludes u "login" ||
        jsIncludes u "sso" || jsIncludes u "oauth" ||
        jsIncludes u "callback") <;> simp [h]

/-- Claim C1, counterexample: at the new-window interception site a URL
containing `callback` with no query parameter at all is put on the auth
branch (forwarded to the current view, no notice), although the spec's
keyword-AND-parameter classifier rejects it. -/
theorem c1_callback_without_param_forwarded :
    (setWindowOpenHandlerOutcome "https://example.com/callback").forwardToView
      = some "https://example.com/callback" ∧
    (setWindowOpenHandlerOutcome "https://example.com/callback").showNotice
      = false ∧
    specClassify "https://example.com/callback" = false :=
  ⟨rfl, rfl, rfl⟩

/-- Claim C2 (corrected): on a new-window request the main process
always denies the window; it forwards the URL to the current view
(without any notice) when the URL contains a keyword OR carries a truthy
auth parameter, and shows the blocking notice otherwise; the renderer's
own new-window handler always prevents the default and moves to
AuthPending exactly on its keyword test, leaving Idle unchanged
otherwise. -/
theorem c2_new_window_policy (u : String) :
    (setWindowOpenHandlerOutcome u).denied = true ∧
    (setWindowOpenHandlerOutcome u).forwardToView
      = (if hasKeyword u || hasTruthyAuthParam u then some u else none) ∧
    (setWindowOpenHandlerOutcome u).showNotice
      = !(hasKeyword u || hasTruthyAuthParam u) ∧
    (handleNewWindow false u).prevented = true ∧
    (handleNewWindow false u).authInProgress = newWindowKeywordHit u := by
  have hw := windowOpenAuthCond_eq u
  refine ⟨?_, ?_, ?_, ?_, ?_⟩
  · unfold setWindowOpenHandlerOutcome
    cases h : windowOpenAuthCond u <;> simp [h]
  · unfold setWindowOpenHandlerOutcome
    rw [hw]
    cases h : (hasKeyword u || hasTruthyAuthParam u) <;> simp [h]
  · unfold setWindowOpenHandlerOutcome
    rw [hw]
    cases h : (hasKeyword u || hasTruthyAuthParam u) <;> simp [h]
  · unfold handleNewWindow
    cases h : (jsIncludes u "auth" || jsIncludes u "login" ||
        jsIncludes u "sso" || jsIncludes u "oauth" ||
        jsIncludes u "callback") <;> simp [h]
  · unfold handleNewWindow newWindowKeywordHit
    cases h : (jsIncludes u "auth" || jsIncludes u "login" ||
        jsIncludes u "sso" || jsIncludes u "oauth" ||
        jsIncludes u "callback") <;> simp [h]

/-- Claim C2, counterexample: `https://site.example/login` carries no
recognized query parameter, so the spec classifies it as not
auth-related and the claim requires a blocking notice with the state
remaining Idle; the code instead forwards it to the current view with no
notice, and the renderer handler moves the state to AuthPending. -/
theorem c2_login_keyword_only_not_blocked :
    specClassify "https://site.example/login" = false ∧
    (setWindowOpenHandlerOutcome "https://site.example/login").showNotice
      = false ∧
    (setWindowOpenHandlerOutcome "https://site.example/login").forwardToView
      = some "https://site.example/login" ∧
    (handleNewWindow false "https://site.example/login").authInProgress
      = true :=
  ⟨rfl, rfl, rfl, rfl⟩

/-- Claim C3 (corrected): the renderer moves Idle to AuthPending on a
keyword-only test: a WillNavigate URL containing one of oauth, auth,
login, sso, or a NewWindowRequest URL containing one of auth, login,
sso, oauth, callback; query parameters are not consulted and `signin`
triggers neither handler.  The NewWindowRequest
`https://example.com/login?token=xyz` does move the state to AuthPending
and load that URL in the current view. -/
theorem c3_idle_to_authpending_keyword_only (u : String) :
    handleWillNavigate false u = willNavigateKeywordHit u ∧
    (handleNewWindow false u).authInProgress = newWindowKeywordHit u ∧
    (handleNewWindow false u).loadInView
      = (if newWindowKeywordHit u then some u else none) ∧
    handleWillNavigate false "https://example.com/signin?code=abc" = false ∧
    specClassify "https://example.com/signin?code=abc" = true ∧
    (handleNewWindow false "https://example.com/login?token=xyz").authInProgress
      = true ∧
    (handleNewWindow false "https://example.com/login?token=xyz").loadInView
      = some "https://example.com/login?token=xyz" := by
  refine ⟨?_, ?_, ?_, by decide, by decide, by decide, by decide⟩
  · unfold handleWillNavigate willNavigateKeywordHit
    cases h : (jsIncludes u "oauth" || jsIncludes u "auth" ||
        jsIncludes u "login" || jsIncludes u "sso") <;> simp [h]
  · unfold handleNewWindow newWindowKeywordHit
    cases h : (jsIncludes u "auth" || jsIncludes u "login" ||
        jsIncludes u "sso" || jsIncludes u "oauth" ||
        jsIncludes u "callback") <;> simp [h]
  · unfold handleNewWindow newWindowKeywordHit
    cases h : (jsIncludes u "auth" || jsIncludes u "login" ||
        jsIncludes u "sso" || jsIncludes u "oauth" ||
        jsIncludes u "callback") <;> simp [h]

/-- Claim C3, counterexample: a WillNavigate event for
`https://example.com/login` (a keyword but no recognized query
parameter, hence not auth-related under the claimed classifier) still
moves the renderer state from Idle to AuthPending. -/
theorem c3_login_without_param_transitions :
    handleWillNavigate false "https://example.com/login" = true ∧
    specClassify "https://example.com/login" = false :=
  ⟨rfl, rfl⟩

/-- Claim C4 (corrected): a completed load clears AuthPending exactly
when the final URL passes the substring pre-check, parses as a URL, and
carries a query parameter named code, token or access_token with a
non-empty first value, or a fragment parameter named access_token with a
non-empty first value; mere presence of a parameter name does not
suffice.  Idle never transitions here, and the spec's example
`https://example.com/done?access_token=zzz` does clear AuthPending. -/
theorem c4_authpending_clear_condition (u : String) :
    handleDidStopLoading true u = !authResultDelivered u ∧
    handleDidStopLoading false u = false ∧
    handleDidStopLoading true "https://example.com/done?access_token=zzz"
      = false := by
  refine ⟨?_, ?_, by decide⟩
  · unfold handleDidStopLoading authResultDelivered
    cases h1 : didStopOuterCheck u <;> simp [h1]
    cases h2 : whatwgParse u with
    | none => simp
    | some pr =>
      cases pr with
      | mk params hashParams =>
        cases h3 : (uspTruthy params "code" || uspTruthy params "token" ||
            uspTruthy params "access_token" ||
            uspTruthy hashParams "access_token") <;> simp_all
  · unfold handleDidStopLoading
    simp

/-- Claim C4, counterexample: `https://example.com/done?code=` contains
a query parameter named `code`, so the claim requires the AuthPending
state to transition to Idle on this completed load, but its value is the
empty string (falsy), so the code leaves the session AuthPending. -/
theorem c4_empty_code_param_keeps_authpending :
    nodeQueryOf "https://example.com/done?code=" = [("code", "")] ∧
    handleDidStopLoading true "https://example.com/done?code=" = true := by
  exact ⟨by decide, by decide⟩

/-- Claim C5 (confirmed): a load failure never changes the auth flag; in
AuthPending nothing is surfaced; in Idle the failure description is
surfaced except for error code -3 (ERR_ABORTED, the "load aborted"
class), which is always suppressed. -/
theorem c5_load_failure_policy (a : Bool) (c : Int) (d : String) :
    (handleLoadFailed a c d).1 = a ∧
    (handleLoadFailed true c d).2 = none ∧
    (handleLoadFailed false c d).2
      = (if c = -3 then none else some ("Error loading page: " ++ d)) := by
  refine ⟨?_, ?_, ?_⟩
  · cases a <;> by_cases hc : c = -3 <;> simp [handleLoadFailed, hc]
  · simp [handleLoadFailed]
  · by_cases hc : c = -3 <;> simp [handleLoadFailed, hc]

/-- Claim C6 (confirmed): every completed navigation sends exactly one
history entry carrying the final URL and the timestamp taken in the
handler, and the main process appends it at the end of the history list:
the length grows by exactly one, all earlier entries are preserved in
order, and nothing is deduplicated. -/
theorem c6_history_append (hist : List HistoryEntry) (u ts : String)
    (b : Option Nat) :
    logUrlOpened hist (didStopLogEntry u ts b)
      = hist ++ [{ url := u, timestamp := ts, batchId := b }] ∧
    (logUrlOpened hist (didStopLogEntry u ts b)).length = hist.length + 1 ∧
    (logUrlOpened hist (didStopLogEntry u ts b)).take hist.length = hist ∧
    (didStopLogEntry u ts b).url = u ∧
    (didStopLogEntry u ts b).timestamp = ts := by
  refine ⟨rfl, by simp [logUrlOpened], ?_, rfl, rfl⟩
  exact take_length_append hist _

/-- Claim C7 (code bug): the UI's history loader invokes the
`get-opened-urls` IPC channel, but the main process registers no handler
for it (its only channels are log-url-opened, open-batch, download-pdf
and open-external, all via `ipcMain.on`), so the invocation rejects and
the UI receives an empty list no matter what history the main process
accumulated. -/
theorem c7_get_history_unwired (mainHistory : List HistoryEntry) :
    ipcMainHandleChannels.contains "get-opened-urls" = false ∧
    ipcMainOnChannels.contains "get-opened-urls" = false ∧
    loadHistory mainHistory = [] :=
  ⟨rfl, by decide, rfl⟩

/-- Claim C8 (corrected): classification is total (never raises); at the
completed-load check a URL that fails to parse leaves the auth flag
unchanged, i.e. the navigation is treated as ordinary; but the
main-process call sites run the legacy parser, which accepts malformed
strings, and their keyword/parameter heuristics still apply, so a
malformed URL is not always classified non-auth there. -/
theorem c8_malformed_url_recovery (u : String)
    (h : whatwgParse u = none) :
    handleDidStopLoading true u = true ∧
    handleDidStopLoading false u = false ∧
    onBeforeRedirectForwards u = (hasKeyword u && hasTruthyAuthParam u) := by
  refine ⟨?_, ?_, rfl⟩
  · unfold handleDidStopLoading
    cases h1 : didStopOuterCheck u <;> simp [h1, h]
  · unfold handleDidStopLoading
    simp

/-- Claim C8, witness: a concrete malformed URL exercising the corrected
statement. -/
theorem c8_malformed_url_recovery_witness :
    whatwgParse "/relative/path" = none ∧
    (handleDidStopLoading true "/relative/path" = true ∧
     handleDidStopLoading false "/relative/path" = false ∧
     onBeforeRedirectForwards "/relative/path"
       = (hasKeyword "/relative/path" &&
          hasTruthyAuthParam "/relative/path")) :=
  ⟨by decide, c8_malformed_url_recovery "/relative/path" (by decide)⟩

/-- Claim C8, counterexample: the malformed string
`auth-callback?token=abc` (no scheme, so the URL constructor rejects it)
is still classified as auth-related at the redirect interception site,
because the legacy parser extracts `token=abc` and the string contains
the keyword `auth`. -/
theorem c8_malformed_classified_auth_at_redirect :
    whatwgParse "auth-callback?token=abc" = none ∧
    onBeforeRedirectForwards "auth-callback?token=abc" = true :=
  ⟨by decide, by decide⟩

/-- Claim C9 (corrected): in the AuthPending-clearing check only an
access_token parameter is recognized in the URL fragment, so a completed
load whose recognized parameters sit only in the fragment as code or
token (with no non-empty access_token there) and which carries no
truthy recognized query parameter leaves the session AuthPending. -/
theorem c9_fragment_only_access_token (u : String)
    (q hs : List (String × String))
    (hp : whatwgParse u = some (q, hs))
    (h1 : uspTruthy q "code" = false)
    (h2 : uspTruthy q "token" = false)
    (h3 : uspTruthy q "access_token" = false)
    (h4 : uspTruthy hs "access_token" = false) :
    handleDidStopLoading true u = true := by
  unfold handleDidStopLoading
  cases hd : didStopOuterCheck u <;> simp [hd, hp, h1, h2, h3, h4]

/-- Claim C9, witness: `https://example.com/callback#token=abc` carries
a token parameter only in its fragment and stays AuthPending. -/
theorem c9_fragment_only_access_token_witness :
    whatwgParse "https://example.com/callback#token=abc"
      = some ([], [("token", "abc")]) ∧
    handleDidStopLoading true "https://example.com/callback#token=abc"
      = true :=
  ⟨by decide,
   c9_fragment_only_access_token _ [] [("token", "abc")]
     (by decide) (by decide) (by decide) (by decide) (by decide)⟩

/-- Claim C9, counterexample: for
`https://example.com/callback#code=abc&access_token=zzz` the code/token
parameters appear only in the fragment and no recognized query parameter
exists (the query is empty), yet the load clears AuthPending, because
the fragment also carries an access_token parameter, which the check
does recognize. -/
theorem c9_fragment_access_token_clears :
    whatwgParse "https://example.com/callback#code=abc&access_token=zzz"
      = some ([], [("code", "abc"), ("access_token", "zzz")]) ∧
    handleDidStopLoading true
      "https://example.com/callback#code=abc&access_token=zzz" = false :=
  ⟨by decide, by decide⟩

/-- Claim C10 (confirmed): both the will-finish-launching and the ready
handler replace `shell.openExternal` with a stub that only logs and
returns a resolved promise, and no later event restores the original;
hence after any startup event sequence (which contains
will-finish-launching), every `shell.openExternal` call launches no
external browser and resolves. -/
theorem c10_open_external_blocked (evs : List AppEvent) (u : String)
    (hmem : AppEvent.willFinishLaunching ∈ evs) :
    (runAppEvents initialMainState evs).openExternal
      = OpenExternalImpl.blockedStub ∧
    callOpenExternal (runAppEvents initialMainState evs).openExternal u
      = { launchedExternal := false, promiseResolved := true,
          loggedBlocked := true } := by
  have hb := runAppEvents_mem_blocked initialMainState evs hmem
  rw [hb]
  exact ⟨rfl, rfl⟩

/-- Claim C10, witness: the Electron startup sequence followed by later
app events. -/
theorem c10_open_external_blocked_witness :
    AppEvent.willFinishLaunching
      ∈ [AppEvent.willFinishLaunching, AppEvent.ready, AppEvent.activate] ∧
    ((runAppEvents initialMainState
        [AppEvent.willFinishLaunching, AppEvent.ready,
         AppEvent.activate]).openExternal = OpenExternalImpl.blockedStub ∧
     callOpenExternal (runAppEvents initialMainState
        [AppEvent.willFinishLaunching, AppEvent.ready,
         AppEvent.activate]).openExternal "https://example.com"
       = { launchedExternal := false, promiseResolved := true,
           loggedBlocked := true }) :=
  ⟨by simp,
   c10_open_external_blocked _ "https://example.com" (by simp)⟩
